import Mathlib

/-
Verification development for the antigravity-openai gateway.

The embedding below is a shallow model of the TypeScript sources:
  src/client.ts        (AntigravityClient: dispatch, streaming, token refresh)
  src/converter part   (OpenAI <-> Antigravity translation)
  src/oauth.ts         (isTokenExpired)
  src/constants.ts     (AVAILABLE_MODELS, ANTIGRAVITY_ENDPOINTS)
Network effects are modelled by passing the per-host fetch outcomes as data;
`crypto.randomUUID()` and `Date.now()` are modelled as explicit parameters.
-/

set_option maxRecDepth 100000

namespace Antigravity

/-- JSON values as produced by `JSON.parse`.  Numbers are modelled as rationals:
JavaScript numbers are IEEE doubles, and every numeric literal in the payloads
this gateway handles is a small integer, on which the two representations
agree exactly. -/
inductive Json where
  | null
  | bool (b : Bool)
  | num (n : Rat)
  | str (s : String)
  | arr (elements : List Json)
  | obj (fields : List (String × Json))
deriving Inhabited

/-- JavaScript truthiness of a parsed JSON value (objects and arrays are always
truthy, `0`, `""`, `null` are falsy). -/
def jsTruthy : Json → Bool
  | .null => false
  | .bool b => b
  | .num n => decide (n ≠ 0)
  | .str s => s != ""
  | .arr _ => true
  | .obj _ => true

/-- Whitespace accepted between JSON tokens. -/
def isJsonWs (c : Char) : Bool :=
  c == ' ' || c == '\n' || c == '\t' || c == '\r'

/-- Drop leading JSON whitespace. -/
def skipWs : List Char → List Char
  | c :: cs => if isJsonWs c then skipWs cs else c :: cs
  | [] => []

/-- Value of a hexadecimal digit, if any. -/
def hexDigit (c : Char) : Option Nat :=
  if '0' ≤ c ∧ c ≤ '9' then some (c.toNat - 48)
  else if 'a' ≤ c ∧ c ≤ 'f' then some (c.toNat - 87)
  else if 'A' ≤ c ∧ c ≤ 'F' then some (c.toNat - 55)
  else none

/-- Character denoted by a single-character JSON escape. -/
def escapeChar : Char → Option Char
  | '"' => some '"'
  | '\\' => some '\\'
  | '/' => some '/'
  | 'b' => some (Char.ofNat 8)
  | 'f' => some (Char.ofNat 12)
  | 'n' => some '\n'
  | 'r' => some '\r'
  | 't' => some '\t'
  | _ => none

/-- Decode a JSON string body (the part after the opening quote), returning the
decoded string and the remaining input.  Handles the standard escapes; a `\u`
escape takes four hex digits (surrogate pairs are not recombined, which no
payload in this development exercises). -/
def parseStringBody : List Char → Option (String × List Char)
  | [] => none
  | '"' :: rest => some ("", rest)
  | '\\' :: 'u' :: h1 :: h2 :: h3 :: h4 :: rest =>
    match hexDigit h1, hexDigit h2, hexDigit h3, hexDigit h4 with
    | some a, some b, some c, some d =>
      (parseStringBody rest).map fun p =>
        (String.mk (Char.ofNat (((a * 16 + b) * 16 + c) * 16 + d) :: p.1.toList), p.2)
    | _, _, _, _ => none
  | '\\' :: e :: rest =>
    match escapeChar e with
    | some c => (parseStringBody rest).map fun p => (String.mk (c :: p.1.toList), p.2)
    | none => none
  | c :: rest => (parseStringBody rest).map fun p => (String.mk (c :: p.1.toList), p.2)

/-- Take a maximal run of decimal digits. -/
def takeDigits : List Char → List Char × List Char
  | c :: rest =>
    if c.isDigit then
      let p := takeDigits rest
      (c :: p.1, p.2)
    else ([], c :: rest)
  | [] => ([], [])

/-- Numeric value of a digit run. -/
def digitsToNat (ds : List Char) : Nat :=
  ds.foldl (fun a c => a * 10 + (c.toNat - 48)) 0

/-- Scale a rational by a (possibly negative) power of ten. -/
def applyExp (q : Rat) (e : Int) : Rat :=
  if 0 ≤ e then q * ((10 : Rat) ^ e.toNat) else q / ((10 : Rat) ^ (-e).toNat)

/-- Parse the exponent suffix of a JSON number. -/
def parseExpPart (base : Rat) (cs : List Char) : Option (Json × List Char) :=
  let p : Int × List Char :=
    match cs with
    | '+' :: r => (1, r)
    | '-' :: r => (-1, r)
    | _ => (1, cs)
  let q := takeDigits p.2
  if q.1.isEmpty then none
  else some (.num (applyExp base (p.1 * (digitsToNat q.1 : Int))), q.2)

/-- Finish parsing a number given its sign, integer digits and what follows. -/
def withExpAndFrac (neg : Bool) (intDs fracDs : List Char) (cs : List Char) :
    Option (Json × List Char) :=
  let base : Rat :=
    if fracDs.isEmpty then (digitsToNat intDs : Rat)
    else (digitsToNat intDs : Rat) + (digitsToNat fracDs : Rat) / ((10 : Rat) ^ fracDs.length)
  let base := if neg then -base else base
  match cs with
  | 'e' :: rest => parseExpPart base rest
  | 'E' :: rest => parseExpPart base rest
  | _ => some (.num base, cs)

/-- Parse a JSON number starting at the given input.  The JSON grammar's
leading-zero restriction is not enforced (no payload here exercises it). -/
def parseNumberAt (cs : List Char) : Option (Json × List Char) :=
  let p : Bool × List Char :=
    match cs with
    | '-' :: rest => (true, rest)
    | _ => (false, cs)
  let q := takeDigits p.2
  if q.1.isEmpty then none
  else
    match q.2 with
    | '.' :: rest =>
      let f := takeDigits rest
      if f.1.isEmpty then none else withExpAndFrac p.1 q.1 f.1 f.2
    | _ => withExpAndFrac p.1 q.1 [] q.2

/-- Parser mode: a plain value, the element list of an array (with the elements
accumulated so far), or the member list of an object. -/
inductive PMode where
  | value
  | items (acc : List Json)
  | members (acc : List (String × Json))

/-- Recursive-descent JSON parser, fuelled so that the recursion is structural
(and therefore evaluates inside the kernel).  Returns the value and the
remaining input. -/
def parseCore : Nat → PMode → List Char → Option (Json × List Char)
  | 0, _, _ => none
  | Nat.succ fuel, PMode.value, cs =>
    match skipWs cs with
    | [] => none
    | '"' :: rest => (parseStringBody rest).map fun p => (Json.str p.1, p.2)
    | c :: rest =>
      if c = Char.ofNat 123 then parseCore fuel (PMode.members []) rest
      else if c = '[' then parseCore fuel (PMode.items []) rest
      else if c = 't' then
        match rest with
        | 'r' :: 'u' :: 'e' :: r => some (Json.bool true, r)
        | _ => none
      else if c = 'f' then
        match rest with
        | 'a' :: 'l' :: 's' :: 'e' :: r => some (Json.bool false, r)
        | _ => none
      else if c = 'n' then
        match rest with
        | 'u' :: 'l' :: 'l' :: r => some (Json.null, r)
        | _ => none
      else parseNumberAt (c :: rest)
  | Nat.succ fuel, PMode.items acc, cs =>
    match skipWs cs with
    | ']' :: rest => if acc.isEmpty then some (Json.arr [], rest) else none
    | cs1 =>
      match parseCore fuel PMode.value cs1 with
      | none => none
      | some (v, rest) =>
        match skipWs rest with
        | ',' :: r2 => parseCore fuel (PMode.items (acc ++ [v])) r2
        | ']' :: r2 => some (Json.arr (acc ++ [v]), r2)
        | _ => none
  | Nat.succ fuel, PMode.members acc, cs =>
    match skipWs cs with
    | [] => none
    | c :: rest =>
      if c = Char.ofNat 125 then
        if acc.isEmpty then some (Json.obj [], rest) else none
      else if c = '"' then
        match parseStringBody rest with
        | none => none
        | some (k, r1) =>
          match skipWs r1 with
          | ':' :: r2 =>
            match parseCore fuel PMode.value r2 with
            | none => none
            | some (v, r3) =>
              match skipWs r3 with
              | ',' :: r4 => parseCore fuel (PMode.members (acc ++ [(k, v)])) r4
              | c2 :: r4 =>
                if c2 = Char.ofNat 125 then some (Json.obj (acc ++ [(k, v)]), r4)
                else none
              | [] => none
          | _ => none
      else none

/-- Model of `JSON.parse` on a character list: parse one value and require that
only whitespace remains; otherwise the parse throws (modelled as `none`). -/
def parseJsonChars (cs : List Char) : Option Json :=
  match parseCore (2 * cs.length + 2) PMode.value cs with
  | some (v, rest) => if (skipWs rest).isEmpty then some v else none
  | none => none

/-- Model of `JSON.parse` on a string. -/
def jsonParse (s : String) : Option Json :=
  parseJsonChars s.toList

/-- Property access on a parsed JSON value, as in JavaScript: `none` models
`undefined`.  On duplicate keys `JSON.parse` keeps the last one. -/
def Json.getField : Json → String → Option Json
  | .obj fields, key => ((fields.filter (fun p => p.1 == key)).getLast?).map (fun p => p.2)
  | _, _ => none

/-- String content of a JSON value, when it is a string. -/
def Json.asString? : Json → Option String
  | .str s => some s
  | _ => none

/-- Numeric content of a JSON value, when it is a number. -/
def Json.asNum? : Json → Option Rat
  | .num n => some n
  | _ => none

/-- Whether an optional JSON value is the boolean `true` (models `x === true`). -/
def isBoolTrue : Option Json → Bool
  | some (.bool true) => true
  | _ => false

/-- Whether an optional JSON value is the given string (models `x === "s"`). -/
def isStrVal : Option Json → String → Bool
  | some (.str t), s => t == s
  | _, _ => false

/-- Model of the JavaScript string expression `a || b`: an absent or empty
first operand falls through to the second. -/
def jsOrString (a : Option String) (b : String) : String :=
  match a with
  | some s => if s == "" then b else s
  | none => b

/-! ## Stream chunks and the SSE stream translator (client.ts lines 50-60, 338-426) -/

/-- The `type` tag of a `StreamChunk` (client.ts line 51).  The source union has
exactly these four values: `"content" | "thinking" | "done" | "error"`. -/
inductive ChunkType where
  | content
  | thinking
  | done
  | error
deriving DecidableEq, Inhabited

/-- Usage counts attached to a stream chunk (client.ts lines 55-59); every
field is optional, mirroring the source. -/
structure StreamUsage where
  promptTokens : Option Rat := none
  completionTokens : Option Rat := none
  totalTokens : Option Rat := none
deriving DecidableEq, Inhabited

/-- The `StreamChunk` record of client.ts lines 50-60: a `type` tag plus four
optional payload fields. -/
structure StreamChunk where
  type : ChunkType
  content : Option String := none
  thinking : Option String := none
  error : Option String := none
  usage : Option StreamUsage := none
deriving DecidableEq, Inhabited

/-- Translate one part of a streamed record (client.ts lines 385-397): a part
flagged `thought === true` or `type === "thinking"` yields a thinking chunk
with text `part.text || part.thinking || ""`; otherwise a part with non-empty
`text` yields a content chunk; anything else yields nothing.  Non-string
`text`/`thinking` fields are treated as absent. -/
def partChunk (part : Json) : Option StreamChunk :=
  let text := (part.getField "text").bind Json.asString?
  let thinkingField := (part.getField "thinking").bind Json.asString?
  if isBoolTrue (part.getField "thought") || isStrVal (part.getField "type") "thinking" then
    some { type := .thinking, thinking := some (jsOrString text (jsOrString thinkingField "")) }
  else
    match text with
    | some t => if t == "" then none else some { type := .content, content := some t }
    | none => none

/-- The parts array of the first candidate of a streamed record, when the whole
access path `response.candidates[0].content.parts` exists and `parts` is an
array (client.ts line 383; a missing link in the chain makes the record be
skipped). -/
def candParts (response : Json) : Option (List Json) :=
  match response.getField "candidates" with
  | some (.arr (cand :: _)) =>
    match cand.getField "content" with
    | some content =>
      match content.getField "parts" with
      | some (.arr parts) => some parts
      | _ => none
    | none => none
  | _ => none

/-- The usage chunk appended for a record carrying `usageMetadata` (client.ts
lines 400-409).  Note the source yields it with `type: "content"`. -/
def usageChunks (response : Json) : List StreamChunk :=
  match response.getField "usageMetadata" with
  | some u =>
    if jsTruthy u then
      [{ type := .content,
         usage := some
           { promptTokens := (u.getField "promptTokenCount").bind Json.asNum?
             completionTokens := (u.getField "candidatesTokenCount").bind Json.asNum?
             totalTokens := (u.getField "totalTokenCount").bind Json.asNum? } }]
    else []
  | none => []

/-- Chunks produced from one successfully parsed record (client.ts lines
382-409): nothing when the `parts` access chain is missing, otherwise the part
chunks in order followed by the usage chunk when `usageMetadata` is present. -/
def processRecord (data : Json) : List StreamChunk :=
  match data.getField "response" with
  | none => []
  | some response =>
    match candParts response with
    | none => []
    | some parts => parts.filterMap partChunk ++ usageChunks response

/-- Chunks produced from the payload of one complete `data:` line (client.ts
lines 361-412): an unparsable payload is skipped silently. -/
def processDataLine (jsonChars : List Char) : List StreamChunk :=
  match parseJsonChars jsonChars with
  | none => []
  | some data => processRecord data

/-- Whitespace removed by JavaScript `String.prototype.trim` (the ASCII
portion, which is all the payloads here contain). -/
def isJsWs (c : Char) : Bool :=
  c == ' ' || c == '\t' || c == '\n' || c == '\r' || c == Char.ofNat 11 || c == Char.ofNat 12

/-- Model of JavaScript `trim` on a character list. -/
def trimChars (cs : List Char) : List Char :=
  ((cs.dropWhile isJsWs).reverse.dropWhile isJsWs).reverse

/-- Model of JavaScript `buffer.split("\n")`: the list of newline-separated
segments, always non-empty. -/
def splitLines : List Char → List (List Char)
  | [] => [[]]
  | c :: cs =>
    let r := splitLines cs
    if c = '\n' then [] :: r
    else
      match r with
      | h :: t => (c :: h) :: t
      | [] => [[c]]

/-- Chunks produced from one complete line (client.ts lines 355-359): only
lines starting with `data:` are considered; the payload is the line after the
5-character prefix, trimmed; an empty payload is skipped. -/
def processLine (line : List Char) : List StreamChunk :=
  if ("data:".toList).isPrefixOf line then
    let jsonChars := trimChars (line.drop 5)
    if jsonChars.isEmpty then [] else processDataLine jsonChars
  else []

/-- One read of the SSE loop (client.ts lines 351-359): the read is appended to
the carry-over buffer, the buffer is split on newline, the final fragment
becomes the new buffer, and every complete line is processed.  Returns the new
buffer and the chunks yielded. -/
def processRead (buffer : List Char) (read : String) : List Char × List StreamChunk :=
  let combined := buffer ++ read.toList
  let segments := splitLines combined
  let newBuffer := (segments.getLast?).getD []
  let lines := segments.dropLast
  (newBuffer, (lines.map processLine).flatten)

/-- Chunks produced by feeding a sequence of reads through the SSE loop,
starting from an empty carry-over buffer (the per-read part of client.ts lines
341-413, before end-of-stream handling). -/
def parseSSEReads (reads : List String) : List StreamChunk :=
  (reads.foldl
    (fun (acc : List Char × List StreamChunk) r =>
      let p := processRead acc.1 r
      (p.1, acc.2 ++ p.2))
    ([], [])).2

/-! ## Endpoint dispatcher, non-streaming (client.ts lines 214-252)

The loop iterates `ANTIGRAVITY_ENDPOINTS` (three distinct hosts,
constants.ts lines 28-32) in order.  We model the outcome the network
delivers at each host as data.  The `endpoint === ANTIGRAVITY_ENDPOINTS[len-1]`
test in the catch block is equivalent to being at the final list position,
because the endpoint strings are pairwise distinct. -/

/-- What `fetch` delivers at one host: an HTTP response with a status and a raw
body, or a transport error carrying a message. -/
inductive GenFetchOutcome where
  | response (status : Nat) (body : String)
  | netError (msg : String)

/-- How `generateContent` terminates, seen from the caller. -/
inductive DispatchResult where
  | success (body : Json)
  | apiError (status : Nat) (body : String)
  | transportError (msg : String)
  | badJson
  | exhausted
deriving Inhabited

/-- The successful body (client.ts line 232): `data.response || data`. -/
def okBody (data : Json) : Json :=
  match data.getField "response" with
  | some r => if jsTruthy r then r else data
  | none => data

/-- The non-streaming dispatch loop of client.ts lines 215-251, with the
number of hosts actually called.  A 2xx response returns its parsed body
(`response.json()` failing to parse is a thrown error, reaching the caller
only from the last host); 403/404/5xx continue to the next host; any other
status throws `API error <status>: <body>` — a throw (also a transport error)
is rethrown by the catch block only at the last host and otherwise the loop
continues; an empty remaining list yields `All Antigravity endpoints failed`,
modelled as `.exhausted`. -/
def generateContentLoop : List GenFetchOutcome → DispatchResult × Nat
  | [] => (.exhausted, 0)
  | o :: rest =>
    let isLast := rest.isEmpty
    let next : Unit → DispatchResult × Nat := fun _ =>
      let p := generateContentLoop rest
      (p.1, p.2 + 1)
    match o with
    | .response status body =>
      if 200 ≤ status ∧ status ≤ 299 then
        match jsonParse body with
        | some data => (.success (okBody data), 1)
        | none => if isLast then (.badJson, 1) else next ()
      else if status = 403 ∨ status = 404 ∨ 500 ≤ status then next ()
      else if isLast then (.apiError status body, 1) else next ()
    | .netError msg => if isLast then (.transportError msg, 1) else next ()

/-! ## Endpoint dispatcher, streaming (client.ts lines 312-426) -/

/-- What one host delivers on the streaming call: a status, the error body used
when the status is terminal, the sequence of reads the body stream yields when
the status is 2xx, and an optional fault thrown by `reader.read()` after those
reads (`none` means the stream ends cleanly). -/
inductive StreamFetchOutcome where
  | response (status : Nat) (errBody : String) (reads : List String) (fault : Option String)
  | netError (msg : String)

/-- Chunks yielded while pumping the reads of one 2xx host from an empty
carry-over buffer (client.ts lines 341-413; the chunks of every read are
yielded before a subsequent fault can strike). -/
def pumpReads : List Char → List String → List StreamChunk
  | _, [] => []
  | buffer, r :: rs =>
    let p := processRead buffer r
    p.2 ++ pumpReads p.1 rs

/-- The message of the error thrown for a terminal status (client.ts line
331). -/
def apiErrorMsg (status : Nat) (body : String) : String :=
  "API error " ++ toString status ++ ": " ++ body

/-- The streaming dispatch loop of client.ts lines 312-426, returning every
chunk the generator yields.  `lastErr` models the `lastError` variable.  On a
2xx response the reads are pumped; a clean end yields a final `done` chunk; a
mid-stream fault is caught by the catch block, which yields a terminal error
chunk at the last host but otherwise continues with the next host.  Terminal
statuses throw and are treated by the same catch; 403/404/5xx continue without
touching `lastError`; an exhausted list yields an error chunk carrying
`lastError?.message || "All endpoints failed"`. -/
def streamLoop (lastErr : Option String) : List StreamFetchOutcome → List StreamChunk
  | [] => [{ type := .error, error := some (lastErr.getD "All endpoints failed") }]
  | o :: rest =>
    let isLast := rest.isEmpty
    match o with
    | .response status errBody reads fault =>
      if 200 ≤ status ∧ status ≤ 299 then
        let chunks := pumpReads [] reads
        match fault with
        | none => chunks ++ [{ type := .done }]
        | some msg =>
          if isLast then chunks ++ [{ type := .error, error := some msg }]
          else chunks ++ streamLoop (some msg) rest
      else if status = 403 ∨ status = 404 ∨ 500 ≤ status then streamLoop lastErr rest
      else
        let msg := apiErrorMsg status errBody
        if isLast then [{ type := .error, error := some msg }]
        else streamLoop (some msg) rest
    | .netError msg =>
      if isLast then [{ type := .error, error := some msg }]
      else streamLoop (some msg) rest

/-- The full chunk sequence of `streamGenerateContent` for a given list of
per-host outcomes. -/
def streamGenerateContent (hosts : List StreamFetchOutcome) : List StreamChunk :=
  streamLoop none hosts

/-! ## Token manager (oauth.ts lines 281-283, client.ts lines 107-124) -/

/-- The stored credential record (oauth.ts lines 15-21).  `expiresAt` and the
current time are absolute timestamps in milliseconds. -/
structure AuthTokens where
  accessToken : String
  refreshToken : String
  expiresAt : Int
  email : Option String := none
  projectId : String
deriving DecidableEq, Inhabited

/-- oauth.ts lines 281-283: `Date.now() > expiresAt - 5 * 60 * 1000`, with the
current time passed explicitly. -/
def isTokenExpired (now expiresAt : Int) : Bool :=
  decide (now > expiresAt - 5 * 60 * 1000)

/-- What a successful `refreshAccessToken` call would deliver (oauth.ts lines
199-202). -/
structure RefreshResult where
  accessToken : String
  expiresAt : Int
deriving DecidableEq, Inhabited

/-- `ensureValidToken` (client.ts lines 107-124) for a loaded credential, with
the current time and the provider's refresh answer passed explicitly.  Returns
the access token handed to the caller, the credential left in memory (and
persisted), and the number of refresh calls performed. -/
def ensureValidToken (now : Int) (tokens : AuthTokens) (refreshed : RefreshResult) :
    String × AuthTokens × Nat :=
  if isTokenExpired now tokens.expiresAt then
    let t := { tokens with
      accessToken := refreshed.accessToken
      expiresAt := refreshed.expiresAt }
    (t.accessToken, t, 1)
  else
    (tokens.accessToken, tokens, 0)

/-! ## Model registry and request preparation (constants.ts lines 45-164,
client.ts lines 136-204 and 262-290) -/

/-- The registry fields that drive translation (constants.ts; the purely
descriptive fields `id`, `display_name`, `description`, `context_length`,
`owned_by`, `created`, `object`, `type` play no role in the claims and are
omitted). -/
structure ModelInfo where
  thinkingLevel : Option String := none
  thinkingBudget : Option Nat := none
deriving DecidableEq, Inhabited

/-- `AVAILABLE_MODELS` (constants.ts lines 45-164) as an association list in
source order. -/
def AVAILABLE_MODELS : List (String × ModelInfo) :=
  [ ("gemini-3-pro-low", { thinkingLevel := some "low" }),
    ("gemini-3-pro-high", { thinkingLevel := some "high" }),
    ("gemini-3-flash", {}),
    ("claude-sonnet-4-5", {}),
    ("claude-sonnet-4-5-thinking-low", { thinkingBudget := some 8192 }),
    ("claude-sonnet-4-5-thinking-medium", { thinkingBudget := some 16384 }),
    ("claude-sonnet-4-5-thinking-high", { thinkingBudget := some 32768 }),
    ("claude-opus-4-5-thinking-low", { thinkingBudget := some 8192 }),
    ("claude-opus-4-5-thinking-medium", { thinkingBudget := some 16384 }),
    ("claude-opus-4-5-thinking-high", { thinkingBudget := some 32768 }),
    ("gpt-oss-120b-medium", {}) ]

/-- ASCII lower-casing, modelling `String.prototype.toLowerCase` on the model
ids this registry holds (all ASCII). -/
def charLower (c : Char) : Char :=
  if 'A' ≤ c ∧ c ≤ 'Z' then Char.ofNat (c.toNat + 32) else c

/-- Lower-case a string character by character. -/
def jsToLower (s : String) : String :=
  String.mk (s.toList.map charLower)

/-- The result of `resolveModel` (client.ts lines 136-165). -/
structure ResolvedModel where
  actualModel : String
  thinkingConfig : Option ModelInfo := none
  isClaude : Bool
deriving DecidableEq, Inhabited

/-- Whether `needle` occurs as a contiguous run inside `hay`, modelling
`String.prototype.includes`. -/
def listContains (needle : List Char) : List Char → Bool
  | [] => needle.isEmpty
  | c :: rest => needle.isPrefixOf (c :: rest) || listContains needle rest

/-- `resolveModel` (client.ts lines 136-165): look the id up in the registry,
prefer a `thinkingLevel` entry over a `thinkingBudget` one, and flag ids whose
lower-cased form contains `claude`. -/
def resolveModel (modelId : String) : ResolvedModel :=
  let modelInfo := AVAILABLE_MODELS.lookup modelId
  let isClaude := listContains ("claude".toList) (jsToLower modelId).toList
  let thinkingConfig : Option ModelInfo :=
    match modelInfo with
    | some info =>
      if info.thinkingLevel.isSome then some { thinkingLevel := info.thinkingLevel }
      else if info.thinkingBudget.isSome then some { thinkingBudget := info.thinkingBudget }
      else none
    | none => none
  { actualModel := modelId, thinkingConfig, isClaude }

/-- The wire `thinkingConfig` object (client.ts lines 25-31): both the
camel-case and the snake-case field pairs exist on the wire type and the code
sets one pair or the other. -/
structure ThinkingConfigW where
  includeThoughts : Option Bool := none
  thinkingLevel : Option String := none
  thinkingBudget : Option Nat := none
  include_thoughts : Option Bool := none
  thinking_budget : Option Nat := none
deriving DecidableEq, Inhabited

/-- The `generationConfig` object (client.ts lines 20-33). -/
structure GenerationConfig where
  temperature : Option Rat := none
  topP : Option Rat := none
  topK : Option Rat := none
  maxOutputTokens : Option Nat := none
  thinkingConfig : Option ThinkingConfigW := none
deriving DecidableEq, Inhabited

/-- A function declaration sent to the backend (converter, lines 495-501). -/
structure FunctionDecl where
  name : String
  description : String := ""
  parameters : Json := Json.obj []
deriving Inhabited

/-- `functionCallingConfig` (converter, lines 502-507). -/
structure FunctionCallingConfig where
  mode : Option String := none
  allowedFunctionNames : Option (List String) := none
deriving Inhabited

/-- `toolConfig` (converter, lines 502-507). -/
structure ToolConfig where
  functionCallingConfig : Option FunctionCallingConfig := none
deriving Inhabited

/-- A backend content part (converter, lines 467-473): exactly one of the four
payload kinds, which is all the translator ever constructs. -/
inductive AgPart where
  | text (s : String)
  | functionCall (name : String) (args : Json)
  | functionResponse (name : String) (response : Json)
  | inlineData (mimeType : String) (data : String)
deriving Inhabited

/-- A backend content turn (converter, lines 465-474). -/
inductive AgRole where
  | user
  | model
deriving DecidableEq, Inhabited

/-- A backend content turn: a role and its ordered parts. -/
structure AntigravityContent where
  role : AgRole
  parts : List AgPart
deriving Inhabited

/-- The translated backend request (client.ts lines 15-40 / converter lines
476-509). `systemInstruction` is its list of part texts. -/
structure GenerateContentRequest where
  contents : List AntigravityContent := []
  generationConfig : Option GenerationConfig := none
  systemInstruction : Option (List String) := none
  tools : Option (List (List FunctionDecl)) := none
  toolConfig : Option ToolConfig := none
deriving Inhabited

/-- The thinking-augmentation block shared verbatim by `generateContent`
(client.ts lines 178-197) and `streamGenerateContent` (lines 265-283): with a
resolved thinking config present, `generationConfig` is materialised; for a
claude model with a non-zero budget the snake-case include-thoughts flag and
budget are set and `maxOutputTokens` is raised to `max(current || 0, 65536)`;
otherwise a non-empty thinking level sets the camel-case flag and level. -/
def applyThinking (resolved : ResolvedModel) (gcIn : Option GenerationConfig) :
    Option GenerationConfig :=
  match resolved.thinkingConfig with
  | none => gcIn
  | some tc =>
    let gc := gcIn.getD {}
    if resolved.isClaude && tc.thinkingBudget.getD 0 != 0 then
      some { gc with
        thinkingConfig := some { include_thoughts := some true,
                                 thinking_budget := tc.thinkingBudget }
        maxOutputTokens := some (max (gc.maxOutputTokens.getD 0) 65536) }
    else if tc.thinkingLevel.getD "" != "" then
      some { gc with
        thinkingConfig := some { includeThoughts := some true,
                                 thinkingLevel := tc.thinkingLevel } }
    else some gc

/-- The request mutation applied before dispatch, shared by the streaming and
non-streaming paths (client.ts lines 175-204 and 262-290): thinking
augmentation followed by the claude strict tool-calling mode when tools are
declared. -/
def prepareRequest (model : String) (req : GenerateContentRequest) : GenerateContentRequest :=
  let resolved := resolveModel model
  let req1 := { req with generationConfig := applyThinking resolved req.generationConfig }
  let hasTools := match req1.tools with
    | some ts => decide (ts.length > 0)
    | none => false
  if resolved.isClaude && hasTools then
    { req1 with
      toolConfig := some { functionCallingConfig := some { mode := some "VALIDATED" } } }
  else req1

/-! ## Request translation, OpenAI to Antigravity (converter, lines 435-724) -/

/-- Message roles of the public chat shape (converter, line 436). -/
inductive ChatRole where
  | system
  | user
  | assistant
  | tool
deriving DecidableEq, Inhabited

/-- One item of a multi-part message content (converter, line 437);
`image_url` holds the nested `url` string when present. -/
structure ContentItem where
  type : String
  text : Option String := none
  image_url : Option String := none
deriving DecidableEq, Inhabited

/-- The `content` field of a public message: a string or an item list. -/
inductive MessageContent where
  | str (s : String)
  | items (l : List ContentItem)
deriving DecidableEq, Inhabited

/-- A structured tool call on an assistant message (converter, lines 439-443);
the `type` is always `"function"`. -/
structure MsgToolCall where
  id : String
  name : String
  arguments : String
deriving DecidableEq, Inhabited

/-- A public chat message (converter, lines 435-445). -/
structure OpenAIMessage where
  role : ChatRole
  content : MessageContent
  name : Option String := none
  tool_calls : Option (List MsgToolCall) := none
  tool_call_id : Option String := none
deriving DecidableEq, Inhabited

/-- A public function tool declaration (converter, lines 454-461); the outer
`type` is kept because the source filters on it. -/
structure OpenAITool where
  type : String
  name : String
  description : Option String := none
  parameters : Option Json := none
deriving Inhabited

/-- The `tool_choice` field (converter, line 462). -/
inductive ToolChoice where
  | auto
  | none
  | fn (name : String)
deriving DecidableEq, Inhabited

/-- The public chat request (converter, lines 447-463). -/
structure OpenAIChatRequest where
  model : String
  messages : List OpenAIMessage
  temperature : Option Rat := none
  top_p : Option Rat := none
  max_tokens : Option Nat := none
  stream : Option Bool := none
  tools : Option (List OpenAITool) := none
  tool_choice : Option ToolChoice := none
deriving Inhabited

/-- The data-URI pattern of converter line 686,
`^data:([^;]+);base64,(.+)$`: a non-empty run of non-semicolon characters,
the literal `;base64,`, and a non-empty payload without a newline (the
un-flagged `.` does not match a line break).  Returns the mime type and the
payload. -/
def parseDataUri (url : String) : Option (String × String) :=
  let cs := url.toList
  if ("data:".toList).isPrefixOf cs then
    let afterScheme := cs.drop 5
    let mime := afterScheme.takeWhile (fun c => c != ';')
    let rest := afterScheme.dropWhile (fun c => c != ';')
    if mime.isEmpty then Option.none
    else if (";base64,".toList).isPrefixOf rest then
      let payload := rest.drop 8
      if payload.isEmpty || payload.any (fun c => c == '\n') then Option.none
      else some (String.mk mime, String.mk payload)
    else Option.none
  else Option.none

/-- Translate one multi-part content item (converter, lines 679-697):
non-empty text becomes a text part; an image URL becomes an inline-data part
only when it matches the data-URI pattern; everything else is dropped. -/
def convertItem (item : ContentItem) : List AgPart :=
  if item.type == "text" && item.text.getD "" != "" then
    [AgPart.text (item.text.getD "")]
  else if item.type == "image_url" && item.image_url.getD "" != "" then
    let url := item.image_url.getD ""
    if url.startsWith "data:" then
      match parseDataUri url with
      | some (mime, payload) => [AgPart.inlineData mime payload]
      | Option.none => []
    else []
  else []

/-- The body of the function-response part for a tool-result message
(converter, lines 653-658): string content is `JSON.parse`d, with invalid
JSON degrading to `{result: <raw string>}`; array content is passed through
as-is (modelled by re-encoding each item as a JSON object on the part
fields the public item carries). -/
def toolResponseBody : MessageContent → Json
  | .str s =>
    match jsonParse s with
    | some j => j
    | Option.none => Json.obj [("result", Json.str s)]
  | .items l =>
    Json.arr (l.map (fun item => Json.obj
      [("type", Json.str item.type)]))

/-- `convertMessage` (converter, lines 647-724).  A tool-role message bearing
a truthy `tool_call_id` becomes a user turn with one function-response part
keyed by `msg.name || msg.tool_call_id`; otherwise string content yields at
most one text part, item content is translated item-wise, an assistant
message's tool calls each append a function-call part (invalid argument JSON
degrading to `{}`), and a turn that would have zero parts becomes `none`. -/
def convertMessage (msg : OpenAIMessage) : Option AntigravityContent :=
  let role : AgRole := if msg.role = ChatRole.assistant then .model else .user
  if msg.role = ChatRole.tool ∧ msg.tool_call_id.getD "" ≠ "" then
    some { role := .user,
           parts := [AgPart.functionResponse
             (jsOrString msg.name (msg.tool_call_id.getD ""))
             (toolResponseBody msg.content)] }
  else
    let contentParts : List AgPart :=
      match msg.content with
      | .str s => if s == "" then [] else [AgPart.text s]
      | .items l => (l.map convertItem).flatten
    let toolCallParts : List AgPart :=
      if msg.role = ChatRole.assistant ∧ msg.tool_calls.isSome then
        (msg.tool_calls.getD []).map (fun tc =>
          AgPart.functionCall tc.name ((jsonParse tc.arguments).getD (Json.obj [])))
      else []
    let parts := contentParts ++ toolCallParts
    if parts.isEmpty then Option.none else some { role, parts }

/-- `convertOpenAIToAntigravity` (converter, lines 567-642). -/
def convertOpenAIToAntigravity (request : OpenAIChatRequest) : GenerateContentRequest :=
  let systemMessages := request.messages.filter (fun m => m.role = ChatRole.system)
  let systemText := String.intercalate "\n\n"
    (systemMessages.map (fun m =>
      match m.content with
      | .str s => s
      | .items _ => ""))
  let systemInstruction : Option (List String) :=
    if systemMessages.length > 0 ∧ systemText ≠ "" then some [systemText] else Option.none
  let nonSystem := request.messages.filter (fun m => m.role ≠ ChatRole.system)
  let contents := nonSystem.filterMap convertMessage
  let generationConfig : Option GenerationConfig :=
    if request.temperature.isSome ∨ request.top_p.isSome ∨ request.max_tokens.isSome then
      some { temperature := request.temperature,
             topP := request.top_p,
             maxOutputTokens := request.max_tokens }
    else Option.none
  let toolsDeclared := match request.tools with
    | some ts => decide (ts.length > 0)
    | Option.none => false
  let functionDeclarations : List FunctionDecl :=
    match request.tools with
    | some ts =>
      (ts.filter (fun t => t.type == "function")).map (fun t =>
        { name := t.name,
          description := t.description.getD "",
          parameters := t.parameters.getD
            (Json.obj [("type", Json.str "object"), ("properties", Json.obj [])]) })
    | Option.none => []
  let tools : Option (List (List FunctionDecl)) :=
    if toolsDeclared && decide (functionDeclarations.length > 0) then some [functionDeclarations]
    else Option.none
  let toolConfig : Option ToolConfig :=
    if toolsDeclared = true then
      match request.tool_choice with
      | some ToolChoice.none =>
        some { functionCallingConfig := some { mode := some "NONE" } }
      | some ToolChoice.auto =>
        some { functionCallingConfig := some { mode := some "AUTO" } }
      | some (ToolChoice.fn n) =>
        some { functionCallingConfig := some { mode := some "ANY",
                                               allowedFunctionNames := some [n] } }
      | Option.none => Option.none
    else Option.none
  { contents, generationConfig, systemInstruction, tools, toolConfig }

/-! ## Response translation, Antigravity to OpenAI (converter, lines 729-819) -/

/-- Escape one character for a JSON string literal, as `JSON.stringify` does
for the characters the payloads here contain. -/
def renderStringChar (c : Char) : String :=
  if c = '"' then "\\\""
  else if c = '\\' then "\\\\"
  else if c = '\n' then "\\n"
  else if c = '\r' then "\\r"
  else if c = '\t' then "\\t"
  else String.mk [c]

/-- Fuelled rendering of a JSON value, modelling `JSON.stringify` (compact, no
spaces).  Non-integral numbers are rendered as `num/den`, an approximation:
float formatting is out of scope and no claim evaluates it. -/
def renderFuel : Nat → Json → String
  | 0, _ => ""
  | _, .null => "null"
  | _, .bool true => "true"
  | _, .bool false => "false"
  | _, .num n =>
    if n.den = 1 then toString n.num
    else toString n.num ++ "/" ++ toString n.den
  | _, .str s => "\"" ++ String.join (s.toList.map renderStringChar) ++ "\""
  | Nat.succ fuel, .arr xs =>
    "[" ++ String.intercalate "," (xs.map (renderFuel fuel)) ++ "]"
  | Nat.succ fuel, .obj fields =>
    String.mk [Char.ofNat 123] ++
      String.intercalate ","
        (fields.map (fun p =>
          "\"" ++ String.join (p.1.toList.map renderStringChar) ++ "\":" ++
            renderFuel fuel p.2)) ++
      String.mk [Char.ofNat 125]

mutual

/-- Structural size of a JSON value, used to fuel `Json.render`. -/
def jsonSize : Json → Nat
  | .arr xs => 1 + jsonListSize xs
  | .obj fs => 1 + jsonFieldsSize fs
  | _ => 1

/-- Total size of a list of JSON values. -/
def jsonListSize : List Json → Nat
  | [] => 1
  | x :: xs => 1 + jsonSize x + jsonListSize xs

/-- Total size of a list of JSON object fields. -/
def jsonFieldsSize : List (String × Json) → Nat
  | [] => 1
  | p :: ps => 1 + jsonSize p.2 + jsonFieldsSize ps

end

/-- `JSON.stringify` of a parsed value. -/
def Json.render (j : Json) : String :=
  renderFuel (jsonSize j) j

/-- A part of a backend response candidate (converter, lines 732-737). -/
structure RespPart where
  text : Option String := none
  thought : Option Bool := none
  functionCall : Option (String × Json) := none
deriving Inhabited

/-- The `content` object of a candidate (optional `parts`). -/
structure RespContent where
  parts : Option (List RespPart) := none
deriving Inhabited

/-- One backend candidate (converter, lines 731-740). -/
structure RespCandidate where
  content : Option RespContent := none
  finishReason : Option String := none
deriving Inhabited

/-- Backend usage metadata (converter, lines 741-745). -/
structure UsageMetadata where
  promptTokenCount : Option Nat := none
  candidatesTokenCount : Option Nat := none
  totalTokenCount : Option Nat := none
deriving DecidableEq, Inhabited

/-- A backend response (converter, lines 730-746). -/
structure AntigravityResponse where
  candidates : Option (List RespCandidate) := none
  usageMetadata : Option UsageMetadata := none
deriving Inhabited

/-- A public tool call entry (converter, lines 516-520); `type` is always
`"function"`. -/
structure OutToolCall where
  id : String
  name : String
  arguments : String
deriving DecidableEq, Inhabited

/-- The assistant message of a choice (converter, lines 513-521). -/
structure OutMessage where
  content : Option String
  tool_calls : Option (List OutToolCall) := none
deriving DecidableEq, Inhabited

/-- One public choice (converter, lines 511-523); `finish_reason` is one of
`"stop"`, `"length"`, `"tool_calls"`. -/
structure OpenAIChoice where
  index : Nat
  message : OutMessage
  finish_reason : Option String
deriving DecidableEq, Inhabited

/-- Public usage counts (converter, lines 531-535). -/
structure UsageOut where
  prompt_tokens : Nat
  completion_tokens : Nat
  total_tokens : Nat
deriving DecidableEq, Inhabited

/-- The public chat response (converter, lines 525-536); `object` is always
`"chat.completion"`. -/
structure OpenAIChatResponse where
  id : String
  created : Nat
  model : String
  choices : List OpenAIChoice
  usage : Option UsageOut := none
deriving DecidableEq, Inhabited

/-- The part scan of converter lines 762-782: thought-flagged parts are
skipped entirely, non-empty text accumulates in order, and each function-call
part appends a tool call whose id takes the first eight characters of a fresh
uuid (`uuidAt k` models the `crypto.randomUUID()` result for the k-th tool
call). -/
def accumulateParts (uuidAt : Nat → String) (parts : List RespPart) :
    String × List OutToolCall :=
  parts.foldl
    (fun acc part =>
      if part.thought.getD false then acc
      else
        let withText :=
          if part.text.getD "" != "" then (acc.1 ++ part.text.getD "", acc.2) else acc
        match part.functionCall with
        | some (n, args) =>
          (withText.1,
           withText.2 ++
             [{ id := "call_" ++ String.mk ((uuidAt withText.2.length).toList.take 8),
                name := n,
                arguments := Json.render (if jsTruthy args then args else Json.obj []) }])
        | Option.none => withText)
    ("", [])

/-- `convertAntigravityToOpenAI` (converter, lines 729-819), with the fresh
uuid source and the current time in milliseconds passed explicitly.  Only the
first candidate is considered; `finishReason === "MAX_TOKENS"` maps to
`length`, otherwise produced tool calls force `tool_calls`, otherwise `stop`;
empty accumulated text becomes a null content; usage counts are copied with
`|| 0` defaults when `usageMetadata` is present. -/
def convertAntigravityToOpenAI (response : AntigravityResponse) (model : String)
    (requestId : Option String) (uuid : String) (uuidAt : Nat → String) (nowMs : Nat) :
    OpenAIChatResponse :=
  let id := jsOrString requestId ("chatcmpl-" ++ uuid)
  let created := nowMs / 1000
  let choices : List OpenAIChoice :=
    match response.candidates with
    | some (candidate :: _) =>
      let parts := (candidate.content.bind RespContent.parts).getD []
      let acc := accumulateParts uuidAt parts
      let finishReason :=
        if candidate.finishReason == some "MAX_TOKENS" then "length"
        else if acc.2.length > 0 then "tool_calls"
        else "stop"
      [{ index := 0,
         message := { content := if acc.1 == "" then Option.none else some acc.1,
                      tool_calls := if acc.2.length > 0 then some acc.2 else Option.none },
         finish_reason := some finishReason }]
    | _ => []
  let usage : Option UsageOut :=
    response.usageMetadata.map (fun u =>
      { prompt_tokens := u.promptTokenCount.getD 0,
        completion_tokens := u.candidatesTokenCount.getD 0,
        total_tokens := u.totalTokenCount.getD 0 })
  { id, created, model, choices, usage }

/-! ## Claim theorems -/

/-- An SSE frame carrying one text part, as the backend emits them. -/
def sseTextRecord (t : String) : String :=
  "data: \x7b\"response\":\x7b\"candidates\":[\x7b\"content\":\x7b\"parts\":[\x7b\"text\":\"" ++
    t ++ "\"\x7d]\x7d\x7d]\x7d\x7d\n\n"

/-- Host outcomes for the C1 failing input: the first host answers 401
(non-retryable per the spec), the second answers 200 with an empty JSON
object. -/
def c1hosts : List GenFetchOutcome :=
  [GenFetchOutcome.response 401 "unauthorized",
   GenFetchOutcome.response 200 "\x7b\x7d"]

/-- C1: the claim says a non-2xx status that is not 403/404 and below 500
aborts immediately with no call to any later host.  The code instead throws
inside the `try` block, so its own failover `catch` swallows the error on
every host but the last: on hosts `[A(401), B(200)]` the dispatcher calls
both hosts (count 2) and returns B's success instead of failing with the 401
error, contradicting the claim (and the code's own comment `Return error for
other status codes`). -/
theorem C1_nonretryable_status_failover_behavior :
    generateContentLoop c1hosts = (DispatchResult.success (Json.obj []), 2) := rfl

/-- Host outcomes for the C2 failing input: the first host streams a 2xx
response, yields one content chunk and then faults mid-stream; the second
host streams cleanly. -/
def c2hosts : List StreamFetchOutcome :=
  [StreamFetchOutcome.response 200 "" [sseTextRecord "a"] (some "boom"),
   StreamFetchOutcome.response 200 "" [sseTextRecord "b"] Option.none]

/-- C2: the claim says that once a host has returned 2xx and the stream has
begun yielding chunks, no later host is contacted and any subsequent fault is
surfaced as a single terminal error chunk.  In the code the mid-stream fault
is caught by the per-host failover `catch`, which on a non-final host
continues with the next host: after host 1 faults mid-stream (having already
yielded content `"a"`), host 2 is contacted and its content `"b"` is yielded,
and no error chunk appears at all. -/
theorem C2_midstream_fault_failover_behavior :
    streamGenerateContent c2hosts =
      [{ type := ChunkType.content, content := some "a" },
       { type := ChunkType.content, content := some "b" },
       { type := ChunkType.done }] ∧
    ((streamGenerateContent c2hosts).any fun c => c.type == ChunkType.error) = false ∧
    ((streamGenerateContent c2hosts).any fun c => c.content == some "b") = true :=
  ⟨rfl, rfl, rfl⟩

/-- First read of the C6 input: a `data:` line cut in the middle of the JSON
payload, with no newline. -/
def c6read1 : String :=
  "data: \x7b\"response\":\x7b\"candidates\":[\x7b\"content\":\x7b\"parts\":[\x7b\"te"

/-- Second read of the C6 input: the rest of the record and the blank line. -/
def c6read2 : String :=
  "xt\":\"hi\"\x7d]\x7d\x7d]\x7d\x7d\n\n"

/-- C6: a record split mid-JSON across two reads is reassembled losslessly:
the first read produces no chunk and is retained whole in the carry-over
buffer, and the two reads together yield exactly one content chunk with text
`"hi"`. -/
theorem C6_split_reassembly :
    processRead [] c6read1 = (c6read1.toList, []) ∧
    parseSSEReads [c6read1, c6read2] =
      [{ type := ChunkType.content, content := some "hi" }] :=
  ⟨rfl, rfl⟩

/-- C3 counterexample: a credential expiring exactly 5 minutes from now is
within the claim's inclusive refresh window, yet `ensureValidToken` performs
no refresh call (count 0) and returns the stored token unchanged, because
`isTokenExpired` uses a strict comparison. -/
theorem C3_counterexample :
    (300000 : Int) - 0 ≤ 5 * 60 * 1000 ∧
    ensureValidToken 0
        { accessToken := "tok", refreshToken := "r", expiresAt := 300000, projectId := "p" }
        { accessToken := "new", expiresAt := 900000 } =
      ("tok",
       { accessToken := "tok", refreshToken := "r", expiresAt := 300000, projectId := "p" },
       0) :=
  ⟨by decide, rfl⟩

/-- C3 (amended): `ensureValidToken` refreshes exactly when `expiresAt` is
strictly less than 5 minutes after the current time; when `expiresAt` is 5 or
more minutes in the future it makes no refresh call and returns the stored
access token unchanged, and in the refresh case it performs exactly one
refresh call and returns the refreshed token. -/
theorem C3_refresh_window (now : Int) (tokens : AuthTokens) (refreshed : RefreshResult) :
    (5 * 60 * 1000 ≤ tokens.expiresAt - now →
      ensureValidToken now tokens refreshed = (tokens.accessToken, tokens, 0)) ∧
    (tokens.expiresAt - now < 5 * 60 * 1000 →
      (ensureValidToken now tokens refreshed).2.2 = 1 ∧
      (ensureValidToken now tokens refreshed).1 = refreshed.accessToken) := by
  constructor
  · intro h
    have hc : isTokenExpired now tokens.expiresAt = false := by
      simp only [isTokenExpired, decide_eq_false_iff_not, not_lt]
      omega
    simp [ensureValidToken, hc]
  · intro h
    have hc : isTokenExpired now tokens.expiresAt = true := by
      simp only [isTokenExpired, decide_eq_true_eq]
      omega
    simp [ensureValidToken, hc]

/-- C3 witness: a credential expiring 15 minutes from now is served without a
refresh call. -/
theorem C3_refresh_window_witness :
    ensureValidToken 0
        { accessToken := "tok", refreshToken := "r", expiresAt := 900000, projectId := "p" }
        { accessToken := "new", expiresAt := 1 } =
      ("tok",
       { accessToken := "tok", refreshToken := "r", expiresAt := 900000, projectId := "p" },
       0) :=
  (C3_refresh_window 0
    { accessToken := "tok", refreshToken := "r", expiresAt := 900000, projectId := "p" }
    { accessToken := "new", expiresAt := 1 }).1 (by decide)

/-- A complete streamed record carrying one text part and a usage block. -/
def c4record : String :=
  "\x7b\"response\":\x7b\"candidates\":[\x7b\"content\":\x7b\"parts\":[\x7b\"text\":\"hi\"\x7d]\x7d\x7d]," ++
  "\"usageMetadata\":\x7b\"promptTokenCount\":1,\"candidatesTokenCount\":2,\"totalTokenCount\":3\x7d\x7d\x7d"

/-- The parsed C4 record. -/
def c4json : Json :=
  (jsonParse c4record).getD Json.null

/-- C4 counterexample: the claim says a record with a usage block yields a
chunk of a tagged variant `usage` distinct from `content`, `thinking`,
`done`, and `error`.  The `StreamChunk` union of client.ts line 51 has no
such variant, and on a concrete record with a usage block every emitted
chunk, including the usage-carrying one, has type `content`. -/
theorem C4_counterexample :
    processDataLine c4record.toList =
      [{ type := ChunkType.content, content := some "hi" },
       { type := ChunkType.content,
         usage := some { promptTokens := some 1, completionTokens := some 2,
                         totalTokens := some 3 } }] ∧
    (processDataLine c4record.toList).all (fun c => c.type == ChunkType.content) = true :=
  ⟨rfl, rfl⟩

/-- C4 (amended): for every parsed record whose first candidate carries a
parts array and which carries a truthy usage block, the translator yields the
part chunks in order followed by one chunk of the `content` variant (there is
no `usage` variant) with no text, carrying the prompt, completion, and total
token counts in its `usage` field. -/
theorem C4_usage_chunk (data response : Json) (parts : List Json) (u : Json)
    (hresp : data.getField "response" = some response)
    (hparts : candParts response = some parts)
    (husage : response.getField "usageMetadata" = some u)
    (htruthy : jsTruthy u = true) :
    processRecord data =
      parts.filterMap partChunk ++
        [{ type := ChunkType.content,
           content := Option.none,
           thinking := Option.none,
           error := Option.none,
           usage := some
             { promptTokens := (u.getField "promptTokenCount").bind Json.asNum?,
               completionTokens := (u.getField "candidatesTokenCount").bind Json.asNum?,
               totalTokens := (u.getField "totalTokenCount").bind Json.asNum? } }] := by
  simp [processRecord, hresp, hparts, usageChunks, husage, htruthy]

/-- C4 witness: the amended statement evaluated on the concrete record. -/
theorem C4_usage_chunk_witness :
    processRecord c4json =
      [{ type := ChunkType.content, content := some "hi" },
       { type := ChunkType.content,
         usage := some { promptTokens := some 1, completionTokens := some 2,
                         totalTokens := some 3 } }] :=
  C4_usage_chunk c4json _ _ _ rfl rfl rfl rfl

/-- A successful association-list lookup exhibits a member of the list. -/
theorem lookup_mem_pairs {k : String} {v : ModelInfo} :
    ∀ {l : List (String × ModelInfo)}, List.lookup k l = some v → (k, v) ∈ l := by
  intro l
  induction l with
  | nil => intro h; simp [List.lookup] at h
  | cons p t ih =>
    intro h
    rw [List.lookup] at h
    by_cases hk : k == p.1
    · rw [hk] at h
      cases h
      have : k = p.1 := by simpa using hk
      subst this
      exact List.mem_cons_self _ _
    · rw [Bool.not_eq_true] at hk
      rw [hk] at h
      exact List.mem_cons_of_mem _ (ih h)

/-- Every registry model with a thinking budget has a non-zero budget, no
thinking level, and an id containing `claude` — checked over the concrete
registry. -/
theorem budget_models_are_claude :
    ∀ p ∈ AVAILABLE_MODELS, p.2.thinkingBudget.isSome = true →
      (listContains ("claude".toList) (jsToLower p.1).toList = true ∧
       p.2.thinkingBudget.getD 0 ≠ 0 ∧ p.2.thinkingLevel = Option.none) := by
  decide

/-- C5: for every request naming a budget-mode model of the registry, the
prepared backend request's `maxOutputTokens` is `max(callerValue || 0, 65536)`
— hence at least 65536, raising any lower caller value and never lowering a
higher one — and its thinking config carries the snake-case include-thoughts
flag and the model's numeric budget. -/
theorem C5_budget_floor (m : String) (info : ModelInfo) (b : Nat)
    (req : GenerateContentRequest)
    (hm : AVAILABLE_MODELS.lookup m = some info)
    (hb : info.thinkingBudget = some b) :
    (prepareRequest m req).generationConfig =
      some { (req.generationConfig.getD {}) with
             thinkingConfig := some { include_thoughts := some true,
                                      thinking_budget := some b },
             maxOutputTokens :=
               some (max ((req.generationConfig.getD {}).maxOutputTokens.getD 0) 65536) } ∧
    65536 ≤ max ((req.generationConfig.getD {}).maxOutputTokens.getD 0) 65536 := by
  have hmem := lookup_mem_pairs hm
  have hfact := budget_models_are_claude (m, info) hmem (by simp [hb])
  obtain ⟨hclaude, hbne, hlevel⟩ := hfact
  have hb0 : b ≠ 0 := fun hz => hbne (by simp [hb, hz])
  refine ⟨?_, Nat.le_max_right _ _⟩
  have hresolved : resolveModel m =
      { actualModel := m, thinkingConfig := some { thinkingBudget := some b },
        isClaude := true } := by
    simp [resolveModel, hm, hlevel, hb, hclaude]
    exact ⟨hlevel, hclaude⟩
  have happly : applyThinking (resolveModel m) req.generationConfig =
      some { (req.generationConfig.getD {}) with
             thinkingConfig := some { include_thoughts := some true,
                                      thinking_budget := some b },
             maxOutputTokens :=
               some (max ((req.generationConfig.getD {}).maxOutputTokens.getD 0) 65536) } := by
    rw [hresolved]
    simp [applyThinking, hb0]
  simp only [prepareRequest]
  split
  · simpa using happly
  · simpa using happly

/-- C5 witness: the budget-mode model `claude-sonnet-4-5-thinking-low` with a
caller-supplied `maxOutputTokens` of 100 is raised to 65536 and carries the
8192 budget. -/
theorem C5_budget_floor_witness :
    (prepareRequest "claude-sonnet-4-5-thinking-low"
        { generationConfig := some { maxOutputTokens := some 100 } }).generationConfig =
      some { thinkingConfig := some { include_thoughts := some true,
                                      thinking_budget := some 8192 },
             maxOutputTokens := some (max 100 65536) } ∧
    65536 ≤ max 100 65536 :=
  C5_budget_floor "claude-sonnet-4-5-thinking-low" { thinkingBudget := some 8192 } 8192
    { generationConfig := some { maxOutputTokens := some 100 } } rfl rfl

/-- Whether a backend part is a function-response part. -/
def isFunctionResponsePart : AgPart → Bool
  | .functionResponse _ _ => true
  | _ => false

/-- A tool-role message with content `"oops"` and no tool-call id. -/
def c7msgNoId : OpenAIMessage :=
  { role := ChatRole.tool, content := .str "oops" }

/-- C7 counterexample: the claim quantifies over every tool-role message, but
the code enters the function-response branch only when `tool_call_id` is
present and non-empty.  A tool-role message without a tool-call id is instead
translated as an ordinary user turn with a plain text part and no
function-response part at all. -/
theorem C7_counterexample :
    convertMessage c7msgNoId =
      some { role := AgRole.user, parts := [AgPart.text "oops"] } ∧
    ((convertMessage c7msgNoId).getD default).parts.any isFunctionResponsePart = false :=
  ⟨rfl, rfl⟩

/-- C7 (amended): for every tool-role message bearing a non-empty tool-call
id, translation produces a user turn holding a single function-response part
whose body parses the string content as JSON when valid and otherwise wraps
the raw string as `{result: <string>}`, keyed by the declared tool name with
the tool-call id as fallback; translation never fails (it is total). -/
theorem C7_tool_message (msg : OpenAIMessage) (i : String)
    (hrole : msg.role = ChatRole.tool) (hid : msg.tool_call_id = some i)
    (hne : i ≠ "") :
    convertMessage msg =
      some { role := AgRole.user,
             parts := [AgPart.functionResponse (jsOrString msg.name i)
                         (toolResponseBody msg.content)] } := by
  unfold convertMessage
  rw [if_pos]
  · rw [hid]
    rfl
  · exact ⟨hrole, by simp [hid, hne]⟩

/-- C7 witness: a tool message whose content `"oops"` is not valid JSON, with
tool-call id `call_1` and no declared name, becomes one function-response
part keyed `call_1` with body `{result: "oops"}`. -/
theorem C7_tool_message_witness :
    convertMessage
        { role := ChatRole.tool, content := .str "oops", tool_call_id := some "call_1" } =
      some { role := AgRole.user,
             parts := [AgPart.functionResponse "call_1"
                         (Json.obj [("result", Json.str "oops")])] } :=
  C7_tool_message
    { role := ChatRole.tool, content := .str "oops", tool_call_id := some "call_1" }
    "call_1" rfl rfl (by decide)

/-- Inverting the omit-when-empty pattern of `convertMessage`: when
`if b then none else some x` is `some c`, the guard was false and `c` is
`x`. -/
theorem ite_isEmpty_some {b : Bool} {x c : AntigravityContent}
    (h : (if b = true then (Option.none : Option AntigravityContent) else some x) = some c) :
    c = x ∧ b = false := by
  cases b
  · simp at h
    exact ⟨h.symm, rfl⟩
  · exact absurd h (by simp)

/-- A translated message always carries at least one part. -/
theorem convertMessage_parts_nonempty (m : OpenAIMessage) (c : AntigravityContent)
    (h : convertMessage m = some c) : c.parts.isEmpty = false := by
  unfold convertMessage at h
  by_cases hc : m.role = ChatRole.tool ∧ m.tool_call_id.getD "" ≠ ""
  · rw [if_pos hc] at h
    have h2 := Option.some.inj h
    rw [← h2]
    rfl
  · rw [if_neg hc] at h
    obtain ⟨hcx, hb⟩ := ite_isEmpty_some h
    rw [hcx]
    exact hb

/-- C8: every turn of the translated backend turn sequence has at least one
part, for every input chat request; and a message that would yield zero parts
(an assistant message with empty string content and no tool calls) is omitted
entirely, its translation being `none`. -/
theorem C8_no_empty_turns :
    (∀ request : OpenAIChatRequest,
      ((convertOpenAIToAntigravity request).contents.all fun c => !c.parts.isEmpty) = true) ∧
    convertMessage { role := ChatRole.assistant, content := .str "" } = Option.none := by
  refine ⟨fun request => ?_, rfl⟩
  rw [List.all_eq_true]
  intro c hc
  have hmem : c ∈ (request.messages.filter
      (fun m => m.role ≠ ChatRole.system)).filterMap convertMessage := hc
  rw [List.mem_filterMap] at hmem
  obtain ⟨m, _, hmc⟩ := hmem
  simp [convertMessage_parts_nonempty m c hmc]

/-- C9: for every backend response with at least one candidate, the translated
response has a sole choice; its content is the accumulated non-thought text
(null when empty); its tool calls are exactly the translated function-call
parts (absent when none); and its finish reason is `length` when the first
candidate's finish reason is `MAX_TOKENS`, otherwise `tool_calls` when at
least one function-call part was translated into a tool call, otherwise
`stop`. -/
theorem C9_finish_reason (response : AntigravityResponse) (model : String)
    (requestId : Option String) (uuid : String) (uuidAt : Nat → String) (nowMs : Nat)
    (candidate : RespCandidate) (rest : List RespCandidate)
    (h : response.candidates = some (candidate :: rest)) :
    (convertAntigravityToOpenAI response model requestId uuid uuidAt nowMs).choices =
      [{ index := 0,
         message :=
           { content :=
               if (accumulateParts uuidAt
                     ((candidate.content.bind RespContent.parts).getD [])).1 == "" then
                 Option.none
               else
                 some (accumulateParts uuidAt
                   ((candidate.content.bind RespContent.parts).getD [])).1,
             tool_calls :=
               if (accumulateParts uuidAt
                     ((candidate.content.bind RespContent.parts).getD [])).2.length > 0 then
                 some (accumulateParts uuidAt
                   ((candidate.content.bind RespContent.parts).getD [])).2
               else Option.none },
         finish_reason :=
           some (if candidate.finishReason == some "MAX_TOKENS" then "length"
                 else if (accumulateParts uuidAt
                       ((candidate.content.bind RespContent.parts).getD [])).2.length > 0 then
                   "tool_calls"
                 else "stop") }] := by
  simp only [convertAntigravityToOpenAI, h]

/-- A backend response with one candidate holding a single non-thought text
part `"Hello"` and no finish reason. -/
def c9response : AntigravityResponse :=
  { candidates := some [{ content := some { parts := some [{ text := some "Hello" }] } }] }

/-- C9 witness: the end-to-end example of the claim — the sole choice carries
content `"Hello"`, no tool calls, and finish reason `stop`. -/
theorem C9_finish_reason_witness :
    (convertAntigravityToOpenAI c9response "m" Option.none "u" (fun _ => "u") 0).choices =
      [{ index := 0,
         message := { content := some "Hello", tool_calls := Option.none },
         finish_reason := some "stop" }] :=
  C9_finish_reason c9response "m" Option.none "u" (fun _ => "u") 0
    { content := some { parts := some [{ text := some "Hello" }] } } [] rfl

/-- C10: for every backend response whose candidates list is absent or empty,
translation yields a well-formed response with an empty choices list that
still carries the supplied request id (or a freshly generated
`chatcmpl-<uuid>`), the model id, the translation-time timestamp, and the
usage counts exactly when the backend supplied a usage block. -/
theorem C10_empty_candidates (response : AntigravityResponse) (model : String)
    (requestId : Option String) (uuid : String) (uuidAt : Nat → String) (nowMs : Nat)
    (h : response.candidates = Option.none ∨ response.candidates = some []) :
    convertAntigravityToOpenAI response model requestId uuid uuidAt nowMs =
      { id := jsOrString requestId ("chatcmpl-" ++ uuid),
        created := nowMs / 1000,
        model := model,
        choices := [],
        usage := response.usageMetadata.map (fun u =>
          { prompt_tokens := u.promptTokenCount.getD 0,
            completion_tokens := u.candidatesTokenCount.getD 0,
            total_tokens := u.totalTokenCount.getD 0 }) } := by
  rcases h with h | h <;> simp only [convertAntigravityToOpenAI, h]

/-- C10 witness: a response with no candidates field and a usage block becomes
an empty-choices response carrying a generated id and the usage counts. -/
theorem C10_empty_candidates_witness :
    convertAntigravityToOpenAI
        { candidates := Option.none,
          usageMetadata := some { promptTokenCount := some 3, candidatesTokenCount := some 4,
                                  totalTokenCount := some 7 } }
        "m" Option.none "u1" (fun _ => "u1") 5000 =
      { id := "chatcmpl-u1",
        created := 5,
        model := "m",
        choices := [],
        usage := some { prompt_tokens := 3, completion_tokens := 4, total_tokens := 7 } } :=
  C10_empty_candidates
    { candidates := Option.none,
      usageMetadata := some { promptTokenCount := some 3, candidatesTokenCount := some 4,
                              totalTokenCount := some 7 } }
    "m" Option.none "u1" (fun _ => "u1") 5000 (Or.inl rfl)

end Antigravity

